import Mathlib

/-!
Shallow embedding of `ext_num.py` (the `ExtNum` extended numeric algebra).

Modelling conventions:
* Python `Fraction` payloads are modelled as `ℚ`.
* Finite binary64 doubles are a subset of `ℚ`; a float payload is modelled by
  its exact rational value (constructor `Val.flt`).  Rounding of double
  arithmetic is not modelled; no theorem below depends on a rounded value.
* Python `complex` payloads are a pair of doubles, modelled as two rationals.
* `None` (the BOTTOM payload) is `Val.pynone`.
* Fallible Python code (raised exceptions) is modelled with `Except PErr`.
* The libm primitives (`math.exp`, `math.log`, ...) are modelled by simple
  rational functions that are exact at the IEEE-pinned points the theorems
  evaluate (`exp 0 = 1`, `log 1 = 0`, `sin 0 = 0`, `cos 0 = 1`); their values
  elsewhere are platform-dependent doubles and no theorem depends on them.
-/

deriving instance DecidableEq for Except

namespace ExtNumModel

/-- The four kinds of `ExtNum` (class `Kind` in the source). -/
inductive Kind
  | REAL
  | COMPLEX
  | OMEGA
  | BOTTOM
deriving DecidableEq, Repr

/-- Payload of an `ExtNum` (the dynamically typed `val` field): a `Fraction`,
a double, a `complex` (pair of doubles), or `None`. -/
inductive Val
  | rat (q : ℚ)
  | flt (x : ℚ)
  | cpx (re im : ℚ)
  | pynone
deriving DecidableEq, Repr

/-- Numeric content of a payload as a complex number, `Option.none` for `None`.
Python's numeric equality (`Fraction(2) == 2.0 == (2+0j)`) compares exactly
this content. -/
def Val.toC : Val → Option (ℚ × ℚ)
  | Val.rat q => some (q, 0)
  | Val.flt x => some (x, 0)
  | Val.cpx a b => some (a, b)
  | Val.pynone => Option.none

/-- Python `v == 0` on a payload. -/
def Val.isZero (v : Val) : Bool := v.toC = some (0, 0)

/-- Python `==` between two payloads (cross-representation numeric equality;
`None == None` is `True`). -/
def valEq (v w : Val) : Bool := v.toC = w.toC

/-- Whether the payload is a Python `complex`. -/
def Val.isCpx : Val → Bool
  | Val.cpx _ _ => true
  | _ => false

/-- Whether the payload is a Python `float`. -/
def Val.isFlt : Val → Bool
  | Val.flt _ => true
  | _ => false

/-- Whether the payload is a `Fraction`. -/
def Val.isRat : Val → Bool
  | Val.rat _ => true
  | _ => false

/-- Result representation of a Python binary numeric operation between the two
payloads: `complex` dominates, then `float`, else `Fraction`.  The imaginary
part is dropped for non-complex results (it is `0` there). -/
def wrapNum (v w : Val) (z : ℚ × ℚ) : Val :=
  if v.isCpx || w.isCpx then Val.cpx z.1 z.2
  else if v.isFlt || w.isFlt then Val.flt z.1
  else Val.rat z.1

/-- Exceptions raised by the modelled code. -/
inductive PErr
  | valueErr
  | typeErr
  | zeroDivErr
  | keyErr
deriving DecidableEq, Repr

/-- The `ExtNum` dataclass: kind tag, payload, precision-mode flag. -/
structure ExtNum where
  kind : Kind
  val : Val
  use_float : Bool
deriving DecidableEq, Repr

/-- Payload produced by `ExtNum.real(x, use_float)`: `float(x)` in float mode,
`Fraction(x)` in exact mode (same numeric value, different representation). -/
def realVal (q : ℚ) (uf : Bool) : Val := if uf then Val.flt q else Val.rat q

/-- Constructor `ExtNum.real`. -/
def ExtNum.real (q : ℚ) (uf : Bool) : ExtNum := ⟨Kind.REAL, realVal q uf, uf⟩

/-- Constructor `ExtNum.complex` applied to two real numeric arguments
(both modes store a pair of doubles). -/
def ExtNum.complexE (a b : ℚ) (uf : Bool) : ExtNum := ⟨Kind.COMPLEX, Val.cpx a b, uf⟩

/-- Constructor `ExtNum.bottom`. -/
def ExtNum.bottom : ExtNum := ⟨Kind.BOTTOM, Val.pynone, false⟩

/-- The payload conversion performed by `ExtNum.omega`:
`float(a)` if `use_float` and `a` is `Real`, else `Fraction(a)` if `a` is
`Real`, else `complex(a)`. -/
def modeConv (a : Val) (uf : Bool) : Val :=
  match a with
  | Val.rat q => if uf then Val.flt q else Val.rat q
  | Val.flt x => if uf then Val.flt x else Val.rat x
  | v => v

/-- Constructor `ExtNum.omega`: converts the direction per the mode, then
raises `ValueError` when the converted direction equals zero.
`complex(None)` raises `TypeError`. -/
def ExtNum.omega (a : Val) (uf : Bool) : Except PErr ExtNum :=
  if a = Val.pynone then .error PErr.typeErr
  else
    let a' := modeConv a uf
    if a'.isZero then .error PErr.valueErr
    else .ok ⟨Kind.OMEGA, a', uf⟩

/-- `ExtNum.real(v, uf)` applied to an arbitrary payload `v`:
`Fraction(v)` / `float(v)` raise `TypeError` on `complex` and `None`. -/
def realFromVal (v : Val) (uf : Bool) : Except PErr ExtNum :=
  match v with
  | Val.rat q => .ok (ExtNum.real q uf)
  | Val.flt x => .ok (ExtNum.real x uf)
  | _ => .error PErr.typeErr

/-- `ExtNum.complex(r, i, uf)` where the first argument is an arbitrary
payload: `float(r)` / `Fraction(r)` raise `TypeError` when `r` is a
`complex` or `None` (the source passes a `cmath` result, a `complex`, at
several call sites, which therefore always raise). -/
def complexFromVal (r : Val) (i : ℚ) (uf : Bool) : Except PErr ExtNum :=
  match r with
  | Val.rat q => .ok (ExtNum.complexE q i uf)
  | Val.flt x => .ok (ExtNum.complexE x i uf)
  | _ => .error PErr.typeErr

/-- A foreign Python numeric operand accepted by `_coerce`. -/
inductive PyNum
  | pint (n : ℤ)
  | pfrac (q : ℚ)
  | pfloat (x : ℚ)
  | pcomplex (a b : ℚ)
deriving DecidableEq, Repr

/-- `ExtNum._coerce`: `Real` inputs become REAL, `Complex` inputs become
COMPLEX, both with the left operand's precision mode. -/
def coerce (p : PyNum) (uf : Bool) : ExtNum :=
  match p with
  | PyNum.pint n => ExtNum.real n uf
  | PyNum.pfrac q => ExtNum.real q uf
  | PyNum.pfloat x => ExtNum.real x uf
  | PyNum.pcomplex a b => ExtNum.complexE a b uf

/-- Python `sign * w` for a payload `w` (`TypeError` for `None`). -/
def scaleVal (s : ℤ) (w : Val) : Except PErr Val :=
  match w.toC with
  | some z => .ok (wrapNum (Val.rat s) w (s * z.1, s * z.2))
  | Option.none => .error PErr.typeErr

/-- Python `v + w` on payloads (`TypeError` when `None` is involved). -/
def valAdd (v w : Val) : Except PErr Val :=
  match v.toC, w.toC with
  | some a, some b => .ok (wrapNum v w (a.1 + b.1, a.2 + b.2))
  | _, _ => .error PErr.typeErr

/-- Python `v * w` on payloads (exact complex multiplication; `TypeError`
when `None` is involved). -/
def valMul (v w : Val) : Except PErr Val :=
  match v.toC, w.toC with
  | some a, some b => .ok (wrapNum v w (a.1 * b.1 - a.2 * b.2, a.1 * b.2 + a.2 * b.1))
  | _, _ => .error PErr.typeErr

/-- Python `v / w` on payloads: `ZeroDivisionError` on a zero divisor,
`TypeError` when `None` is involved, else the exact complex quotient. -/
def valDiv (v w : Val) : Except PErr Val :=
  match v.toC, w.toC with
  | some a, some b =>
    let d := b.1 * b.1 + b.2 * b.2
    if d = 0 then .error PErr.zeroDivErr
    else .ok (wrapNum v w ((a.1 * b.1 + a.2 * b.2) / d, (a.2 * b.1 - a.1 * b.2) / d))
  | _, _ => .error PErr.typeErr

/-- Python `abs(v)` as a rational magnitude: `|q|` for real payloads,
`math.hypot(re, im)` for complex ones (`Rat.sqrt` models the double result,
exact on perfect squares, and zero only at zero), `TypeError` for `None`. -/
def absQ (v : Val) : Except PErr ℚ :=
  match v with
  | Val.rat q => .ok |q|
  | Val.flt x => .ok |x|
  | Val.cpx a b => .ok (Rat.sqrt (a * a + b * b))
  | Val.pynone => .error PErr.typeErr

/-- Real numeric content of a payload, as demanded by `float(v)` or an order
comparison: `TypeError` on `complex` and `None`. -/
def toRealQ (v : Val) : Except PErr ℚ :=
  match v with
  | Val.rat q => .ok q
  | Val.flt x => .ok x
  | _ => .error PErr.typeErr

/-- `ExtNum.__eq__` between two `ExtNum` values: two BOTTOMs are equal,
otherwise kinds and payload values must agree.  The mode flag is NOT
consulted. -/
def ExtNum.eq (x y : ExtNum) : Bool :=
  if x.kind = Kind.BOTTOM ∧ y.kind = Kind.BOTTOM then true
  else decide (x.kind = y.kind) && valEq x.val y.val

/-- `ExtNum.__hash__`, `hash((self.kind, self.val, self.use_float))`: Python's
numeric hash depends only on the numeric value of the payload (equal numbers
hash equally across `int`/`float`/`Fraction`/`complex`); the tuples that the
theorems below compare have distinct components and distinct hashes. -/
def ExtNum.hashKey (x : ExtNum) : Kind × Option (ℚ × ℚ) × Bool :=
  (x.kind, x.val.toC, x.use_float)

/-- `ExtNum._add_sub` (after coercion of the right operand). -/
def ExtNum.addSub (x y : ExtNum) (s : ℤ) : Except PErr ExtNum :=
  if x.kind = Kind.BOTTOM ∨ y.kind = Kind.BOTTOM then .ok ExtNum.bottom
  else if x.kind = Kind.REAL ∧ y.kind = Kind.REAL then do
    let w ← scaleVal s y.val
    let v ← valAdd x.val w
    realFromVal v x.use_float
  else if x.kind = Kind.COMPLEX ∧ y.kind = Kind.COMPLEX then do
    let w ← scaleVal s y.val
    let v ← valAdd x.val w
    match v.toC with
    | some z => .ok (ExtNum.complexE z.1 z.2 x.use_float)
    | Option.none => .error PErr.typeErr
  else if x.kind = Kind.OMEGA ∧ y.kind = Kind.OMEGA then
    if valEq x.val y.val ∧ s = -1 then .ok (ExtNum.real 0 x.use_float)
    else do
      let a1 ← absQ x.val
      let a2 ← absQ y.val
      if a1 ≥ a2 then ExtNum.omega x.val x.use_float
      else do
        let w ← scaleVal s y.val
        ExtNum.omega w x.use_float
  else if x.kind = Kind.OMEGA then .ok x
  else if y.kind = Kind.OMEGA then do
    let w ← scaleVal s y.val
    ExtNum.omega w x.use_float
  else .error PErr.valueErr

/-- `ExtNum.__add__` on two `ExtNum` operands. -/
def ExtNum.add (x y : ExtNum) : Except PErr ExtNum := ExtNum.addSub x y 1

/-- `ExtNum.__sub__` on two `ExtNum` operands. -/
def ExtNum.sub (x y : ExtNum) : Except PErr ExtNum := ExtNum.addSub x y (-1)

/-- `ExtNum.__mul__` on two `ExtNum` operands. -/
def ExtNum.mul (x y : ExtNum) : Except PErr ExtNum :=
  if x.kind = Kind.BOTTOM ∨ y.kind = Kind.BOTTOM then .ok ExtNum.bottom
  else if ((x.kind = Kind.REAL ∨ x.kind = Kind.COMPLEX) ∧ x.val.isZero)
      ∨ ((y.kind = Kind.REAL ∨ y.kind = Kind.COMPLEX) ∧ y.val.isZero) then
    .ok (ExtNum.real 0 x.use_float)
  else if x.kind = Kind.OMEGA ∨ y.kind = Kind.OMEGA then do
    let v ← valMul x.val y.val
    ExtNum.omega v x.use_float
  else do
    let v ← valMul x.val y.val
    .ok ⟨x.kind, v, x.use_float⟩

/-- `ExtNum.__truediv__` on two `ExtNum` operands. -/
def ExtNum.div (x y : ExtNum) : Except PErr ExtNum :=
  if x.kind = Kind.BOTTOM ∨ y.kind = Kind.BOTTOM then .ok ExtNum.bottom
  else if (y.kind = Kind.REAL ∨ y.kind = Kind.COMPLEX) ∧ y.val.isZero then
    if x.kind = Kind.REAL ∨ x.kind = Kind.COMPLEX then
      if x.val.isZero then .ok ExtNum.bottom
      else ExtNum.omega x.val x.use_float
    else ExtNum.omega x.val x.use_float
  else if x.kind = Kind.OMEGA ∨ y.kind = Kind.OMEGA then do
    let v ← valDiv x.val y.val
    ExtNum.omega v x.use_float
  else do
    let v ← valDiv x.val y.val
    .ok ⟨x.kind, v, x.use_float⟩

/-- Model of `math.log` on positive doubles, exact at the IEEE-pinned point
`log 1 = 0`, and zero only at `1` (as for the double-precision `log`). -/
def mathLog (q : ℚ) : ℚ := q - 1

/-- Model of `math.sin`, exact at the IEEE-pinned point `sin 0 = 0`, and
zero only at `0` (as for the double-precision `sin` on nonzero doubles). -/
def mathSin (q : ℚ) : ℚ := q

/-- Model of `math.cos`, exact at the IEEE-pinned point `cos 0 = 1`. -/
def mathCos (q : ℚ) : ℚ := 1 - q * q / 2

/-- Model of `math.sqrt` (correctly rounded per IEEE 754): exact on perfect
squares via `Rat.sqrt`, and zero only at zero. -/
def mathSqrt (q : ℚ) : ℚ := Rat.sqrt q

/-- Model of `math.pow`; its values never appear in a theorem below. -/
def mathPow (b e : ℚ) : ℚ := b + e - e

/-- Model of `cmath.sin`, exact at `sin 0 = 0` (first-order model). -/
def cmathSin (z : ℚ × ℚ) : ℚ × ℚ := z

/-- Model of `cmath.cos`, exact at `cos 0 = 1` (second-order model). -/
def cmathCos (z : ℚ × ℚ) : ℚ × ℚ := (1 - (z.1 * z.1 - z.2 * z.2) / 2, -(z.1 * z.2))

/-- Model of `cmath.exp`, exact at `exp 0 = 1` (first-order model). -/
def cmathExp (z : ℚ × ℚ) : ℚ × ℚ := (1 + z.1, z.2)

/-- Model of `cmath.log`, exact at `log 1 = 0` (first-order model). -/
def cmathLog (z : ℚ × ℚ) : ℚ × ℚ := (z.1 - 1, z.2)

/-- Model of `cmath.sqrt`; its values never appear in a theorem below. -/
def cmathSqrt (z : ℚ × ℚ) : ℚ × ℚ := z

/-- Complex multiplication on pairs of rationals. -/
def cMul (z w : ℚ × ℚ) : ℚ × ℚ := (z.1 * w.1 - z.2 * w.2, z.1 * w.2 + z.2 * w.1)

/-- Complex natural power on pairs of rationals. -/
def cPowNat (z : ℚ × ℚ) : ℕ → ℚ × ℚ
  | 0 => (1, 0)
  | n + 1 => cMul z (cPowNat z n)

/-- Complex inverse on pairs of rationals (junk value `(0,0)` at `0`, which
the callers below guard against). -/
def cInv (z : ℚ × ℚ) : ℚ × ℚ :=
  let d := z.1 * z.1 + z.2 * z.2
  if d = 0 then (0, 0) else (z.1 / d, -z.2 / d)

/-- Complex integer power on pairs of rationals. -/
def cPowInt (z : ℚ × ℚ) (n : ℤ) : ℚ × ℚ :=
  if 0 ≤ n then cPowNat z n.toNat else cPowNat (cInv z) (-n).toNat

/-- Python `v ** n` for an integer `n` on a payload: `ZeroDivisionError`
for a zero base and negative exponent, `TypeError` for `None`. -/
def valPowInt (v : Val) (n : ℤ) : Except PErr Val :=
  match v with
  | Val.rat q =>
    if q = 0 ∧ n < 0 then .error PErr.zeroDivErr else .ok (Val.rat (q ^ n))
  | Val.flt x =>
    if x = 0 ∧ n < 0 then .error PErr.zeroDivErr else .ok (Val.flt (x ^ n))
  | Val.cpx a b =>
    if (a = 0 ∧ b = 0) ∧ n < 0 then .error PErr.zeroDivErr
    else .ok (Val.cpx (cPowInt (a, b) n).1 (cPowInt (a, b) n).2)
  | Val.pynone => .error PErr.typeErr

/-- Exponent argument of `ExtNum.__pow__`: a Python `int` or `float`. -/
inductive PyExp
  | pint (n : ℤ)
  | pfloat (f : ℚ)
deriving DecidableEq, Repr

/-- `ExtNum.__pow__`. -/
def ExtNum.pow (x : ExtNum) (e : PyExp) : Except PErr ExtNum :=
  match e with
  | PyExp.pfloat f =>
    if x.kind = Kind.REAL then
      match toRealQ x.val with
      | .error err => .error err
      | .ok base =>
        if base < 0 then
          let c := cmathExp (cMul (f, 0) (cmathLog (base, 0)))
          .ok (ExtNum.complexE c.1 c.2 true)
        else .ok (ExtNum.real (mathPow base f) true)
    else .error PErr.typeErr
  | PyExp.pint n =>
    if n = 0 then
      if x.val.isZero then .ok ExtNum.bottom else .ok (ExtNum.real 1 x.use_float)
    else if x.kind = Kind.COMPLEX then do
      let v ← valPowInt x.val n
      complexFromVal v 0 x.use_float
    else if x.kind = Kind.OMEGA then do
      let v ← valPowInt x.val n
      ExtNum.omega v x.use_float
    else do
      let v ← valPowInt x.val n
      realFromVal v x.use_float

/-- `ExtNum._cmp_key`: `ValueError` on BOTTOM and COMPLEX; `(0, val)` for
REAL, `(1, abs(val))` for OMEGA (`abs` of a real payload keeps its
representation, `abs` of a complex one is a double magnitude). -/
def ExtNum.cmpKey (x : ExtNum) : Except PErr (ℕ × Val) :=
  if x.kind = Kind.BOTTOM then .error PErr.valueErr
  else if x.kind = Kind.REAL then .ok (0, x.val)
  else if x.kind = Kind.OMEGA then
    match x.val with
    | Val.rat q => .ok (1, Val.rat |q|)
    | Val.flt q => .ok (1, Val.flt |q|)
    | Val.cpx a b => .ok (1, Val.flt (Rat.sqrt (a * a + b * b)))
    | Val.pynone => .error PErr.typeErr
  else .error PErr.valueErr

/-- Python `<` on two payloads (`TypeError` when a `complex` or `None` is
involved). -/
def valLt (v w : Val) : Except PErr Bool := do
  let a ← toRealQ v
  let b ← toRealQ w
  .ok (decide (a < b))

/-- Python `<` on two comparison keys (tuple comparison: first components,
then payloads). -/
def keyLt (k1 k2 : ℕ × Val) : Except PErr Bool :=
  if k1.1 = k2.1 then valLt k1.2 k2.2 else .ok (decide (k1.1 < k2.1))

/-- `ExtNum.__lt__`: both keys are built (left first), then compared. -/
def ExtNum.lt (x y : ExtNum) : Except PErr Bool :=
  match ExtNum.cmpKey x with
  | .error e => .error e
  | .ok k1 =>
    match ExtNum.cmpKey y with
    | .error e => .error e
    | .ok k2 => keyLt k1 k2

/-- `ExtNum.__le__`: `self == other or self < other` — the equality test
short-circuits, so equal operands never reach `_cmp_key`. -/
def ExtNum.le (x y : ExtNum) : Except PErr Bool :=
  if ExtNum.eq x y then .ok true else ExtNum.lt x y

/-- `ExtNum.__gt__`: `not self <= other`. -/
def ExtNum.gt (x y : ExtNum) : Except PErr Bool :=
  (ExtNum.le x y).map (fun b => !b)

/-- `ExtNum.__ge__`: `not self < other`. -/
def ExtNum.ge (x y : ExtNum) : Except PErr Bool :=
  (ExtNum.lt x y).map (fun b => !b)

/-- Numeric content of a payload as demanded by a `cmath` call:
`TypeError` on `None`. -/
def toCE (v : Val) : Except PErr (ℚ × ℚ) :=
  match v.toC with
  | some z => .ok z
  | Option.none => .error PErr.typeErr

/-- `ExtNum.log` (lines 189-200).  For REAL, `self.val <= 0` raises
`TypeError` on a `complex` payload; the non-positive branch and the COMPLEX
branch call `ExtNum.complex` with a `complex` first argument and therefore
raise `TypeError`.  For a real-direction OMEGA, `math.log(abs(val))` is taken
(`ValueError` at zero). -/
def ExtNum.log (x : ExtNum) : Except PErr ExtNum :=
  if x.kind = Kind.REAL then
    match toRealQ x.val with
    | .error e => .error e
    | .ok q =>
      if q ≤ 0 then
        complexFromVal (Val.cpx (cmathLog (q, 0)).1 (cmathLog (q, 0)).2) 0 x.use_float
      else .ok (ExtNum.real (mathLog q) x.use_float)
  else if x.kind = Kind.COMPLEX then do
    let z ← toCE x.val
    complexFromVal (Val.cpx (cmathLog z).1 (cmathLog z).2) 0 x.use_float
  else if x.kind = Kind.OMEGA then
    match x.val with
    | Val.cpx a b =>
      let lv := cmathLog (a, b)
      if Rat.sqrt (lv.1 * lv.1 + lv.2 * lv.2) ≠ 0 then
        ExtNum.omega (Val.cpx lv.1 lv.2) x.use_float
      else .ok ExtNum.bottom
    | Val.rat q =>
      if |q| = 0 then .error PErr.valueErr
      else
        let lv := mathLog |q|
        if |lv| ≠ 0 then ExtNum.omega (Val.flt lv) x.use_float else .ok ExtNum.bottom
    | Val.flt q =>
      if |q| = 0 then .error PErr.valueErr
      else
        let lv := mathLog |q|
        if |lv| ≠ 0 then ExtNum.omega (Val.flt lv) x.use_float else .ok ExtNum.bottom
    | Val.pynone => .error PErr.typeErr
  else .ok ExtNum.bottom

/-- `ExtNum.sin` (lines 212-218).  For REAL and COMPLEX the result is the raw
dataclass `ExtNum(self.kind, cmath.sin(self.val), self.use_float)`: a
`complex` payload under the input's kind tag. -/
def ExtNum.sin (x : ExtNum) : Except PErr ExtNum :=
  if x.kind = Kind.REAL ∨ x.kind = Kind.COMPLEX then do
    let z ← toCE x.val
    .ok ⟨x.kind, Val.cpx (cmathSin z).1 (cmathSin z).2, x.use_float⟩
  else if x.kind = Kind.OMEGA then
    match x.val with
    | Val.cpx a b =>
      let sv := cmathSin (a, b)
      ExtNum.omega (Val.cpx sv.1 sv.2) x.use_float
    | Val.rat q => ExtNum.omega (Val.flt (mathSin q)) x.use_float
    | Val.flt q => ExtNum.omega (Val.flt (mathSin q)) x.use_float
    | Val.pynone => .error PErr.typeErr
  else .ok ExtNum.bottom

/-- `ExtNum.cos` (lines 220-226), same raw-dataclass shape as `sin`. -/
def ExtNum.cos (x : ExtNum) : Except PErr ExtNum :=
  if x.kind = Kind.REAL ∨ x.kind = Kind.COMPLEX then do
    let z ← toCE x.val
    .ok ⟨x.kind, Val.cpx (cmathCos z).1 (cmathCos z).2, x.use_float⟩
  else if x.kind = Kind.OMEGA then
    match x.val with
    | Val.cpx a b =>
      let cv := cmathCos (a, b)
      ExtNum.omega (Val.cpx cv.1 cv.2) x.use_float
    | Val.rat q => ExtNum.omega (Val.flt (mathCos q)) x.use_float
    | Val.flt q => ExtNum.omega (Val.flt (mathCos q)) x.use_float
    | Val.pynone => .error PErr.typeErr
  else .ok ExtNum.bottom

/-- `ExtNum.sqrt` (lines 228-239).  For REAL, `self.val < 0` raises
`TypeError` on a `complex` payload; the negative branch and the COMPLEX
branch call `ExtNum.complex` with a `complex` first argument and raise
`TypeError`. -/
def ExtNum.sqrt (x : ExtNum) : Except PErr ExtNum :=
  if x.kind = Kind.REAL then
    match toRealQ x.val with
    | .error e => .error e
    | .ok q =>
      if q < 0 then
        complexFromVal (Val.cpx (cmathSqrt (q, 0)).1 (cmathSqrt (q, 0)).2) 0 x.use_float
      else .ok (ExtNum.real (mathSqrt q) x.use_float)
  else if x.kind = Kind.COMPLEX then do
    let z ← toCE x.val
    complexFromVal (Val.cpx (cmathSqrt z).1 (cmathSqrt z).2) 0 x.use_float
  else if x.kind = Kind.OMEGA then
    match x.val with
    | Val.cpx a b =>
      let sv := cmathSqrt (a, b)
      ExtNum.omega (Val.cpx sv.1 sv.2) x.use_float
    | Val.rat q => ExtNum.omega (Val.flt (mathSqrt |q|)) x.use_float
    | Val.flt q => ExtNum.omega (Val.flt (mathSqrt |q|)) x.use_float
    | Val.pynone => .error PErr.typeErr
  else .ok ExtNum.bottom

/-- Token model of the `str()` image of a payload: a `Fraction` prints as a
ratio/decimal literal, a double as its shortest round-tripping repr, a
`complex` as the parenthesised `a+bj` form, `None` as `"None"`.  The token
carries the exact value the string denotes. -/
inductive NumStr
  | ratStr (q : ℚ)
  | fltStr (x : ℚ)
  | cpxStr (a b : ℚ)
  | noneStr
deriving DecidableEq, Repr

/-- `str(val)` on a payload. -/
def strOfVal : Val → NumStr
  | Val.rat q => NumStr.ratStr q
  | Val.flt x => NumStr.fltStr x
  | Val.cpx a b => NumStr.cpxStr a b
  | Val.pynone => NumStr.noneStr

/-- `str(val.real)`: the real part of a `complex` is a double; `.real` of a
`Fraction` or `float` is itself. -/
def strRealPart : Val → NumStr
  | Val.rat q => NumStr.ratStr q
  | Val.flt x => NumStr.fltStr x
  | Val.cpx a _ => NumStr.fltStr a
  | Val.pynone => NumStr.noneStr

/-- `str(val.imag)`: `.imag` of a `Fraction` is the integer `0`, of a `float`
the double `0.0`, of a `complex` its double imaginary part. -/
def strImagPart : Val → NumStr
  | Val.rat _ => NumStr.ratStr 0
  | Val.flt _ => NumStr.fltStr 0
  | Val.cpx _ b => NumStr.fltStr b
  | Val.pynone => NumStr.noneStr

/-- The `val` field of the serialized record: one encoded number for
REAL/OMEGA, a real/imaginary pair for COMPLEX. -/
inductive JVal
  | single (s : NumStr)
  | pair (re im : NumStr)
deriving DecidableEq, Repr

/-- The structured record emitted by `to_json` (§6 of the spec): kind name,
mode flag, optional payload field. -/
structure JsonObj where
  kind : Kind
  use_float : Bool
  val : Option JVal
deriving DecidableEq, Repr

/-- `ExtNum.to_json`. -/
def ExtNum.to_json (x : ExtNum) : JsonObj :=
  if x.kind = Kind.COMPLEX then
    ⟨x.kind, x.use_float, some (JVal.pair (strRealPart x.val) (strImagPart x.val))⟩
  else if x.kind = Kind.BOTTOM then ⟨x.kind, x.use_float, Option.none⟩
  else ⟨x.kind, x.use_float, some (JVal.single (strOfVal x.val))⟩

/-- `Fraction(s)` on an encoded number: parses ratio/decimal literals
(including float reprs, exactly) and raises `ValueError` on the
parenthesised complex form and on `"None"`. -/
def parseFraction : NumStr → Except PErr ℚ
  | NumStr.ratStr q => .ok q
  | NumStr.fltStr x => .ok x
  | _ => .error PErr.valueErr

/-- `float(s)` on an encoded number: parses integer and float literals (a
`Fraction` with denominator 1 prints as an integer literal) and raises
`ValueError` on ratio literals, the complex form, and `"None"`. -/
def parseFloat : NumStr → Except PErr ℚ
  | NumStr.ratStr q => if q.den = 1 then .ok q else .error PErr.valueErr
  | NumStr.fltStr x => .ok x
  | _ => .error PErr.valueErr

/-- `ExtNum.from_json` on a structured record (the JSON text layer is
bijective on records and not modelled; a missing or ill-shaped `val` field
raises). -/
def ExtNum.from_json (o : JsonObj) : Except PErr ExtNum :=
  if o.kind = Kind.BOTTOM then .ok ExtNum.bottom
  else if o.kind = Kind.COMPLEX then
    match o.val with
    | some (JVal.pair r i) => do
      let a ← (if o.use_float then parseFloat r else parseFraction r)
      let b ← (if o.use_float then parseFloat i else parseFraction i)
      .ok (ExtNum.complexE a b o.use_float)
    | _ => .error PErr.typeErr
  else
    match o.val with
    | some (JVal.single s) => do
      let v ← (if o.use_float then parseFloat s else parseFraction s)
      .ok ⟨o.kind, if o.use_float then Val.flt v else Val.rat v, o.use_float⟩
    | _ => .error PErr.keyErr

/-- C1: the serialization round trip fails on a constructible value: for the
OMEGA value with complex direction `1j` (constructed by `ExtNum.omega(1j)`),
`from_json(to_json(v))` raises a `ValueError` instead of returning a value
equal to `v` — `to_json` prints the complex direction in the `a+bj` form that
neither `Fraction` nor `float` can parse — while for `ExtNum.real(3)` the
round trip does return the original value. -/
theorem c1_json_roundtrip_complex_omega_fails :
    ExtNum.omega (Val.cpx 0 1) false = .ok ⟨Kind.OMEGA, Val.cpx 0 1, false⟩
    ∧ ExtNum.from_json (ExtNum.to_json ⟨Kind.OMEGA, Val.cpx 0 1, false⟩)
        = .error PErr.valueErr
    ∧ ExtNum.from_json (ExtNum.to_json ⟨Kind.OMEGA, Val.cpx 0 1, true⟩)
        = .error PErr.valueErr
    ∧ ExtNum.from_json (ExtNum.to_json (ExtNum.real 3 false)) = .ok (ExtNum.real 3 false) := by
  refine ⟨by decide, by decide, by decide, by decide⟩

/-- C2: equality is not structural over the full triple and hashing is not
consistent with it: `ExtNum.real(2)` (exact mode) and
`ExtNum.real(2.0, use_float=True)` (float mode) compare equal although their
mode flags differ, yet their hash tuples differ. -/
theorem c2_eq_ignores_mode_hash_differs :
    ExtNum.eq (ExtNum.real 2 false) (ExtNum.real 2 true) = true
    ∧ ExtNum.hashKey (ExtNum.real 2 false) ≠ ExtNum.hashKey (ExtNum.real 2 true)
    ∧ (ExtNum.real 2 false).use_float ≠ (ExtNum.real 2 true).use_float := by
  refine ⟨by decide, by decide, by decide⟩

/-- C3: `sin` and `cos` on an exact-mode REAL input return a value whose kind
tag is REAL but whose payload is a `complex` (the raw `cmath` result), not an
arbitrary-precision rational — the documented REAL kind/payload invariant is
violated. -/
theorem c3_sin_cos_complex_payload_on_real :
    ExtNum.sin (ExtNum.real 0 false) = .ok ⟨Kind.REAL, Val.cpx 0 0, false⟩
    ∧ ExtNum.cos (ExtNum.real 0 false) = .ok ⟨Kind.REAL, Val.cpx 1 0, false⟩
    ∧ Val.isRat (Val.cpx 0 0) = false ∧ Val.isRat (Val.cpx 1 0) = false := by
  refine ⟨by decide, ?_, by decide, by decide⟩
  show ExtNum.cos (ExtNum.real 0 false) = _
  simp [ExtNum.cos, ExtNum.real, realVal, toCE, Val.toC, cmathCos, Bind.bind, Except.bind]

/-- The omega constructor's mode conversion preserves the numeric value. -/
theorem modeConv_toC (v : Val) (uf : Bool) : (modeConv v uf).toC = v.toC := by
  cases v <;> cases uf <;> simp [modeConv, Val.toC]

/-- C9: BOTTOM absorbs addition, subtraction, multiplication and division on
either side, for every `ExtNum` operand `x` (coerced numeric operands are a
special case, since `_coerce` returns REAL or COMPLEX values). -/
theorem c9_bottom_absorption (x : ExtNum) :
    ExtNum.add ExtNum.bottom x = .ok ExtNum.bottom
    ∧ ExtNum.add x ExtNum.bottom = .ok ExtNum.bottom
    ∧ ExtNum.sub ExtNum.bottom x = .ok ExtNum.bottom
    ∧ ExtNum.sub x ExtNum.bottom = .ok ExtNum.bottom
    ∧ ExtNum.mul ExtNum.bottom x = .ok ExtNum.bottom
    ∧ ExtNum.mul x ExtNum.bottom = .ok ExtNum.bottom
    ∧ ExtNum.div ExtNum.bottom x = .ok ExtNum.bottom
    ∧ ExtNum.div x ExtNum.bottom = .ok ExtNum.bottom := by
  refine ⟨?_, ?_, ?_, ?_, ?_, ?_, ?_, ?_⟩ <;>
    simp [ExtNum.add, ExtNum.sub, ExtNum.addSub, ExtNum.mul, ExtNum.div, ExtNum.bottom]

/-- C10: raising BOTTOM to the integer exponent `0` yields exact-mode REAL
one (since `None == 0` is `False`), while raising it to a nonzero integer
exponent raises `TypeError` (from `None ** exp`), not BOTTOM. -/
theorem c10_pow_bottom_int :
    ExtNum.pow ExtNum.bottom (PyExp.pint 0) = .ok (ExtNum.real 1 false)
    ∧ (ExtNum.real 1 false).use_float = false
    ∧ ∀ n : ℤ, n ≠ 0 → ExtNum.pow ExtNum.bottom (PyExp.pint n) = .error PErr.typeErr := by
  refine ⟨by decide, by decide, ?_⟩
  intro n hn
  simp [ExtNum.pow, ExtNum.bottom, valPowInt, hn, Bind.bind, Except.bind]

/-- Witness for C10 at the concrete exponent `2`. -/
theorem c10_pow_bottom_int_witness :
    (2 : ℤ) ≠ 0 ∧ ExtNum.pow ExtNum.bottom (PyExp.pint 2) = .error PErr.typeErr :=
  ⟨by decide, c10_pow_bottom_int.2.2 2 (by decide)⟩

/-- C6: dividing by a finite (REAL or COMPLEX) zero divisor never raises:
a BOTTOM dividend absorbs, a finite zero dividend yields BOTTOM, and a
nonzero finite or OMEGA dividend yields OMEGA whose direction is (numerically
equal to) the dividend's payload. -/
theorem c6_division_by_finite_zero (x y : ExtNum)
    (hy : y.kind = Kind.REAL ∨ y.kind = Kind.COMPLEX) (hz : y.val.isZero = true) :
    (x.kind = Kind.BOTTOM → ExtNum.div x y = .ok ExtNum.bottom)
    ∧ ((x.kind = Kind.REAL ∨ x.kind = Kind.COMPLEX) → x.val.isZero = true →
        ExtNum.div x y = .ok ExtNum.bottom)
    ∧ ((x.kind = Kind.REAL ∨ x.kind = Kind.COMPLEX ∨ x.kind = Kind.OMEGA) →
        x.val.isZero = false → x.val ≠ Val.pynone →
        ExtNum.div x y = .ok ⟨Kind.OMEGA, modeConv x.val x.use_float, x.use_float⟩
        ∧ valEq (modeConv x.val x.use_float) x.val = true) := by
  have hyb : ¬ y.kind = Kind.BOTTOM := by rcases hy with h | h <;> simp [h]
  refine ⟨?_, ?_, ?_⟩
  · intro hx
    simp [ExtNum.div, hx]
  · intro hx hxz
    have hxb : ¬ x.kind = Kind.BOTTOM := by rcases hx with h | h <;> simp [h]
    have h1 : ¬ (x.kind = Kind.BOTTOM ∨ y.kind = Kind.BOTTOM) := by
      intro h; rcases h with h | h
      · exact hxb h
      · exact hyb h
    rw [ExtNum.div, if_neg h1, if_pos ⟨hy, hz⟩, if_pos hx, if_pos hxz]
  · intro hx hxz hnp
    have hxb : ¬ x.kind = Kind.BOTTOM := by rcases hx with h | h | h <;> simp [h]
    have h1 : ¬ (x.kind = Kind.BOTTOM ∨ y.kind = Kind.BOTTOM) := by
      intro h; rcases h with h | h
      · exact hxb h
      · exact hyb h
    have hmz : (modeConv x.val x.use_float).isZero = false := by
      simpa [Val.isZero, modeConv_toC] using hxz
    have hmp : ¬ x.val = Val.pynone := hnp
    have homega : ExtNum.omega x.val x.use_float
        = .ok ⟨Kind.OMEGA, modeConv x.val x.use_float, x.use_float⟩ := by
      simp [ExtNum.omega, hmp, hmz]
    constructor
    · rw [ExtNum.div, if_neg h1, if_pos ⟨hy, hz⟩]
      by_cases hfc : x.kind = Kind.REAL ∨ x.kind = Kind.COMPLEX
      · rw [if_pos hfc, if_neg (by simp [hxz]), homega]
      · rw [if_neg hfc, homega]
    · simp [valEq, modeConv_toC]

/-- Witness for C6: `divide(2, 0)` is `Ω(2)` and `divide(0, 0)` is BOTTOM,
in exact mode, and neither raises. -/
theorem c6_division_by_finite_zero_witness :
    ((ExtNum.real 0 false).kind = Kind.REAL ∨ (ExtNum.real 0 false).kind = Kind.COMPLEX)
    ∧ (ExtNum.real 0 false).val.isZero = true
    ∧ ExtNum.div (ExtNum.real 2 false) (ExtNum.real 0 false)
        = .ok ⟨Kind.OMEGA, modeConv (ExtNum.real 2 false).val false, false⟩
    ∧ ExtNum.div (ExtNum.real 0 false) (ExtNum.real 0 false) = .ok ExtNum.bottom :=
  ⟨by decide, by decide,
    ((c6_division_by_finite_zero (ExtNum.real 2 false) (ExtNum.real 0 false)
      (by decide) (by decide)).2.2 (by decide) (by decide) (by decide)).1,
    (c6_division_by_finite_zero (ExtNum.real 0 false) (ExtNum.real 0 false)
      (by decide) (by decide)).2.1 (by decide) (by decide)⟩

/-- C7: for non-BOTTOM operands, a finite operand with payload exactly zero
absorbs multiplication to REAL zero — also when the other operand is OMEGA —
and the result is REAL zero (equal to `ExtNum.real(0)` under `==`), never
BOTTOM. -/
theorem c7_zero_times_omega_real_zero (x y : ExtNum)
    (hx : ¬ x.kind = Kind.BOTTOM) (hy : ¬ y.kind = Kind.BOTTOM)
    (h : ((x.kind = Kind.REAL ∨ x.kind = Kind.COMPLEX) ∧ x.val.isZero = true)
        ∨ ((y.kind = Kind.REAL ∨ y.kind = Kind.COMPLEX) ∧ y.val.isZero = true)) :
    ExtNum.mul x y = .ok (ExtNum.real 0 x.use_float)
    ∧ ExtNum.eq (ExtNum.real 0 x.use_float) (ExtNum.real 0 false) = true
    ∧ ExtNum.real 0 x.use_float ≠ ExtNum.bottom := by
  have h1 : ¬ (x.kind = Kind.BOTTOM ∨ y.kind = Kind.BOTTOM) := by
    intro hh; rcases hh with hh | hh
    · exact hx hh
    · exact hy hh
  refine ⟨?_, ?_, ?_⟩
  · rw [ExtNum.mul, if_neg h1, if_pos h]
  · cases hu : x.use_float <;> decide
  · cases hu : x.use_float <;> decide

/-- Witness for C7: `real(0) × Ω(5)` (exact mode) is REAL zero, not BOTTOM. -/
theorem c7_zero_times_omega_real_zero_witness :
    ¬ (ExtNum.real 0 false).kind = Kind.BOTTOM
    ∧ ¬ (ExtNum.mk Kind.OMEGA (Val.rat 5) false).kind = Kind.BOTTOM
    ∧ ExtNum.mul (ExtNum.real 0 false) (ExtNum.mk Kind.OMEGA (Val.rat 5) false)
        = .ok (ExtNum.real 0 false) :=
  ⟨by decide, by decide,
    (c7_zero_times_omega_real_zero (ExtNum.real 0 false)
      (ExtNum.mk Kind.OMEGA (Val.rat 5) false)
      (by decide) (by decide) (Or.inl ⟨by decide, by decide⟩)).1⟩

/-- C4 counterexample: comparisons between equal operands do not raise —
`__le__` short-circuits through `==` — so `BOTTOM <= BOTTOM` returns `True`,
`BOTTOM > BOTTOM` returns `False`, and a COMPLEX value compared with itself
via `<=` returns `True`, contradicting the claim that these raise a domain
error. -/
theorem c4_equal_operands_compare_without_error :
    ExtNum.le ExtNum.bottom ExtNum.bottom = .ok true
    ∧ ExtNum.gt ExtNum.bottom ExtNum.bottom = .ok false
    ∧ ExtNum.le (ExtNum.complexE 1 2 false) (ExtNum.complexE 1 2 false) = .ok true
    ∧ ExtNum.gt (ExtNum.complexE 1 2 false) (ExtNum.complexE 1 2 false) = .ok false := by
  refine ⟨by decide, by decide, by decide, by decide⟩

/-- C4 (amended): for a left operand that is not the unconstructible junk
state of an OMEGA tag over a `None` payload, when either operand is BOTTOM
or a COMPLEX value is involved, `<` and `>=` always raise the domain error
(`ValueError`, from `_cmp_key`); `<=` and `>` raise that same domain error
exactly when the two operands are not `==`-equal, and otherwise return
`True` resp. `False` without raising. -/
theorem c4_comparison_domain_errors (x y : ExtNum)
    (hx : ¬ (x.kind = Kind.OMEGA ∧ x.val = Val.pynone))
    (h : x.kind = Kind.BOTTOM ∨ x.kind = Kind.COMPLEX
        ∨ y.kind = Kind.BOTTOM ∨ y.kind = Kind.COMPLEX) :
    ExtNum.lt x y = .error PErr.valueErr
    ∧ ExtNum.ge x y = .error PErr.valueErr
    ∧ (ExtNum.eq x y = false →
        ExtNum.le x y = .error PErr.valueErr ∧ ExtNum.gt x y = .error PErr.valueErr)
    ∧ (ExtNum.eq x y = true →
        ExtNum.le x y = .ok true ∧ ExtNum.gt x y = .ok false) := by
  have hbc : ∀ z : ExtNum, z.kind = Kind.BOTTOM ∨ z.kind = Kind.COMPLEX →
      ExtNum.cmpKey z = .error PErr.valueErr := by
    intro z hz
    rcases hz with hz | hz <;> simp [ExtNum.cmpKey, hz]
  have hro : ∀ z : ExtNum, ¬ (z.kind = Kind.OMEGA ∧ z.val = Val.pynone) →
      ¬ (z.kind = Kind.BOTTOM ∨ z.kind = Kind.COMPLEX) →
      ∃ k, ExtNum.cmpKey z = .ok k := by
    intro z hnp hz
    push_neg at hz
    obtain ⟨hzb, hzc⟩ := hz
    obtain ⟨k, v, uf⟩ := z
    cases k
    case REAL => exact ⟨(0, v), by simp [ExtNum.cmpKey]⟩
    case COMPLEX => exact absurd rfl hzc
    case BOTTOM => exact absurd rfl hzb
    case OMEGA =>
      cases v
      case rat q => exact ⟨(1, Val.rat |q|), by simp [ExtNum.cmpKey]⟩
      case flt q => exact ⟨(1, Val.flt |q|), by simp [ExtNum.cmpKey]⟩
      case cpx a b => exact ⟨(1, Val.flt (Rat.sqrt (a * a + b * b))), by simp [ExtNum.cmpKey]⟩
      case pynone => exact absurd ⟨rfl, rfl⟩ hnp
  have hlt : ExtNum.lt x y = .error PErr.valueErr := by
    by_cases hxbc : x.kind = Kind.BOTTOM ∨ x.kind = Kind.COMPLEX
    · simp only [ExtNum.lt]
      rw [hbc x hxbc]
    · obtain ⟨k, hk⟩ := hro x hx hxbc
      have hybc : y.kind = Kind.BOTTOM ∨ y.kind = Kind.COMPLEX := by
        rcases h with h | h | h | h
        · exact absurd (Or.inl h) hxbc
        · exact absurd (Or.inr h) hxbc
        · exact Or.inl h
        · exact Or.inr h
      simp only [ExtNum.lt]
      rw [hk, hbc y hybc]
  refine ⟨hlt, by simp [ExtNum.ge, hlt, Except.map], ?_, ?_⟩
  · intro hne
    constructor
    · simp [ExtNum.le, hne, hlt]
    · simp [ExtNum.gt, ExtNum.le, hne, hlt, Except.map]
  · intro heq
    constructor
    · simp [ExtNum.le, heq]
    · simp [ExtNum.gt, ExtNum.le, heq, Except.map]

/-- Witness for C4 at `real(1) < complex(0, 1)`: a comparison against a
COMPLEX operand raises the `ValueError` domain error. -/
theorem c4_comparison_domain_errors_witness :
    ¬ ((ExtNum.real 1 false).kind = Kind.OMEGA ∧ (ExtNum.real 1 false).val = Val.pynone)
    ∧ ((ExtNum.real 1 false).kind = Kind.BOTTOM ∨ (ExtNum.real 1 false).kind = Kind.COMPLEX
      ∨ (ExtNum.complexE 0 1 false).kind = Kind.BOTTOM
      ∨ (ExtNum.complexE 0 1 false).kind = Kind.COMPLEX)
    ∧ ExtNum.lt (ExtNum.real 1 false) (ExtNum.complexE 0 1 false) = .error PErr.valueErr :=
  ⟨by decide, by decide,
    (c4_comparison_domain_errors (ExtNum.real 1 false) (ExtNum.complexE 0 1 false)
      (by decide) (by decide)).1⟩

/-- A successful `ExtNum.real(v, uf)` conversion carries the requested mode
flag. -/
theorem realFromVal_flag (v : Val) (uf : Bool) (r : ExtNum)
    (h : realFromVal v uf = .ok r) : r.use_float = uf := by
  cases v <;> simp [realFromVal] at h <;> (subst h; rfl)

/-- A successful `ExtNum.complex(v, i, uf)` conversion carries the requested
mode flag. -/
theorem complexFromVal_flag (v : Val) (i : ℚ) (uf : Bool) (r : ExtNum)
    (h : complexFromVal v i uf = .ok r) : r.use_float = uf := by
  cases v <;> simp [complexFromVal] at h <;> (subst h; rfl)

/-- C8 counterexample: `log` of the OMEGA value with direction `-1` is
BOTTOM — the code takes `math.log(abs(-1)) = 0` — although the principal
logarithm of the direction `-1` itself is `iπ ≠ 0`, for which the claim
demands an OMEGA result. -/
theorem c8_log_omega_negative_one_bottom :
    ExtNum.omega (Val.rat (-1)) false = .ok ⟨Kind.OMEGA, Val.rat (-1), false⟩
    ∧ ExtNum.log ⟨Kind.OMEGA, Val.rat (-1), false⟩ = .ok ExtNum.bottom := by
  refine ⟨by decide, ?_⟩
  have h1 : |(-1 : ℚ)| = 1 := by rw [abs_neg, abs_one]
  simp [ExtNum.log, h1, mathLog, sub_self]

/-- C8 (amended): for an OMEGA with a real (rational or double) direction
`a ≠ 0`, `log` applies `math.log` to the magnitude `|a|`, not to the
direction: the result is `Ω(log |a|)`, demoted to BOTTOM exactly when
`log |a| = 0`, and it is invariant under negating the direction. -/
theorem c8_log_omega_uses_magnitude (a : ℚ) (uf : Bool) (ha : a ≠ 0) :
    (ExtNum.log ⟨Kind.OMEGA, Val.rat a, uf⟩
      = if mathLog |a| = 0 then .ok ExtNum.bottom
        else ExtNum.omega (Val.flt (mathLog |a|)) uf)
    ∧ (ExtNum.log ⟨Kind.OMEGA, Val.flt a, uf⟩
      = if mathLog |a| = 0 then .ok ExtNum.bottom
        else ExtNum.omega (Val.flt (mathLog |a|)) uf)
    ∧ ExtNum.log ⟨Kind.OMEGA, Val.rat (-a), uf⟩ = ExtNum.log ⟨Kind.OMEGA, Val.rat a, uf⟩
    ∧ ExtNum.log ⟨Kind.OMEGA, Val.flt (-a), uf⟩ = ExtNum.log ⟨Kind.OMEGA, Val.flt a, uf⟩ := by
  have habs : ¬ |a| = 0 := by simpa using ha
  have key : ∀ v : Val, v = Val.rat a ∨ v = Val.flt a →
      ExtNum.log ⟨Kind.OMEGA, v, uf⟩
        = if mathLog |a| = 0 then .ok ExtNum.bottom
          else ExtNum.omega (Val.flt (mathLog |a|)) uf := by
    intro v hv
    by_cases hlz : mathLog |a| = 0
    · rcases hv with hv | hv <;> subst hv <;>
        simp [ExtNum.log, habs, hlz]
    · rcases hv with hv | hv <;> subst hv <;>
        simp [ExtNum.log, habs, hlz, abs_eq_zero]
  refine ⟨key _ (Or.inl rfl), key _ (Or.inr rfl), ?_, ?_⟩
  · rw [key _ (Or.inl rfl)]
    have h2 : ExtNum.log ⟨Kind.OMEGA, Val.rat (-a), uf⟩
        = if mathLog |(-a)| = 0 then .ok ExtNum.bottom
          else ExtNum.omega (Val.flt (mathLog |(-a)|)) uf := by
      have : (-a) ≠ 0 := neg_ne_zero.mpr ha
      have habs2 : ¬ |(-a)| = 0 := by simpa using this
      by_cases hlz : mathLog |(-a)| = 0
      · simp [ExtNum.log, habs2, hlz, ha]
      · simp [ExtNum.log, habs2, hlz, abs_eq_zero, ha]
    rw [h2, abs_neg]
  · rw [key _ (Or.inr rfl)]
    have h2 : ExtNum.log ⟨Kind.OMEGA, Val.flt (-a), uf⟩
        = if mathLog |(-a)| = 0 then .ok ExtNum.bottom
          else ExtNum.omega (Val.flt (mathLog |(-a)|)) uf := by
      have : (-a) ≠ 0 := neg_ne_zero.mpr ha
      have habs2 : ¬ |(-a)| = 0 := by simpa using this
      by_cases hlz : mathLog |(-a)| = 0
      · simp [ExtNum.log, habs2, hlz, ha]
      · simp [ExtNum.log, habs2, hlz, abs_eq_zero, ha]
    rw [h2, abs_neg]

/-- Witness for C8 at the direction `-3` (exact mode): negating the
direction does not change `log` of the OMEGA value. -/
theorem c8_log_omega_uses_magnitude_witness :
    (-3 : ℚ) ≠ 0
    ∧ ExtNum.log ⟨Kind.OMEGA, Val.rat (-(-3 : ℚ)), false⟩
        = ExtNum.log ⟨Kind.OMEGA, Val.rat (-3 : ℚ), false⟩ :=
  ⟨by norm_num, (c8_log_omega_uses_magnitude (-3) false (by norm_num)).2.2.1⟩

end ExtNumModel
